import Mathlib

/-!
Verification of the Rosetta API layer of the stacks-blockchain-api repository.

The sources embedded here are:
  * src/unnamed/part_000 (the rosetta-constants module): the error catalog
    `RosettaErrors`, the kind enumeration `RosettaErrorsTypes`,
    `getRosettaNetworkName`, and the Rosetta constants.
  * src/src/tests-rosetta/api.ts: the Rosetta API test suite, whose expected
    responses pin the observable behaviour of the construction endpoints.

The construction endpoint handlers themselves (rosetta-helpers and the
construction routes) are not part of the source tree; where a claim depends
on them, the definition is modelled from the specification (and from the
response shapes pinned by the test suite) and is marked
"Modelled from the spec" in its doc comment.
-/

/-- The enumeration of Rosetta error kinds, from `RosettaErrorsTypes` in
src/unnamed/part_000 (lines 64-104), in source order. -/
inductive RosettaErrorsTypes where
  | invalidAccount
  | insufficientFunds
  | accountEmpty
  | invalidBlockIndex
  | blockNotFound
  | invalidBlockHash
  | transactionNotFound
  | invalidTransactionHash
  | invalidParams
  | invalidNetwork
  | invalidBlockchain
  | unknownError
  | emptyNetworkIdentifier
  | emptyAccountIdentifier
  | invalidBlockIdentifier
  | invalidTransactionIdentifier
  | emptyBlockchain
  | emptyNetwork
  | invalidCurveType
  | invalidPublicKey
  | invalidOperation
  | invalidFee
  | invalidCurrencySymbol
  | invalidCurrencyDecimals
  | invalidTransactionType
  | invalidSender
  | invalidRecipient
  | invalidTransactionString
  | transactionNotSigned
  | invalidAmount
  | invalidFees
  | emptyPublicKey
  | noSignatures
  | invalidSignature
  | signatureNotVerified
  | needOnePublicKey
  | needOnlyOneSignature
  | signatureTypeNotSupported
  | missingTransactionSize
deriving DecidableEq, Fintype

/-- The `RosettaError` interface of src/unnamed/part_000 (lines 107-112):
`{code, message, retriable, details?}`.  No catalog entry populates
`details`, so it defaults to `none`. -/
structure RosettaError where
  code : Nat
  message : String
  retriable : Bool
  details : Option (List (String × String)) := none
deriving DecidableEq

/-- The fixed error catalog `RosettaErrors` of src/unnamed/part_000
(lines 114-310), transcribed entry by entry. -/
def RosettaErrors : RosettaErrorsTypes → RosettaError
  | .invalidAccount => ⟨601, "Invalid Account.", true, none⟩
  | .insufficientFunds => ⟨602, "Insufficient Funds.", false, none⟩
  | .accountEmpty => ⟨603, "Account is empty.", false, none⟩
  | .invalidBlockIndex => ⟨604, "Invalid block index.", false, none⟩
  | .blockNotFound => ⟨605, "Block not found.", true, none⟩
  | .invalidBlockHash => ⟨606, "Invalid block hash.", true, none⟩
  | .transactionNotFound => ⟨607, "Transaction not found.", true, none⟩
  | .invalidTransactionHash => ⟨608, "Invalid transaction hash.", true, none⟩
  | .invalidParams => ⟨609, "Invalid params.", false, none⟩
  | .invalidNetwork => ⟨610, "Invalid network.", false, none⟩
  | .invalidBlockchain => ⟨611, "Invalid blockchain.", false, none⟩
  | .unknownError => ⟨612, "Unknown error.", false, none⟩
  | .emptyNetworkIdentifier => ⟨613, "Network identifier object is null.", false, none⟩
  | .emptyAccountIdentifier => ⟨614, "Account identifier object is null.", false, none⟩
  | .invalidBlockIdentifier => ⟨615, "Block identifier is null.", false, none⟩
  | .invalidTransactionIdentifier => ⟨616, "Transaction identifier is null.", true, none⟩
  | .emptyBlockchain => ⟨617, "Blockchain name is null.", false, none⟩
  | .emptyNetwork => ⟨618, "Network name is null.", false, none⟩
  | .invalidCurveType => ⟨619, "Invalid curve type.", false, none⟩
  | .invalidPublicKey => ⟨620, "invalid public key.", false, none⟩
  | .invalidOperation => ⟨621, "Invalid operation", false, none⟩
  | .invalidFee => ⟨622, "Invalid fee", false, none⟩
  | .invalidCurrencySymbol => ⟨623, "Invalid symbol", false, none⟩
  | .invalidCurrencyDecimals => ⟨624, "Invalid currency decimals", false, none⟩
  | .invalidTransactionType => ⟨625, "Invalid transaction type", false, none⟩
  | .invalidSender => ⟨626, "Invalid sender address", false, none⟩
  | .invalidRecipient => ⟨627, "Invalid recipient address", false, none⟩
  | .invalidTransactionString => ⟨628, "Invalid transaction string", false, none⟩
  | .transactionNotSigned => ⟨629, "Transaction not signed", false, none⟩
  | .invalidAmount => ⟨630, "Amount not available", false, none⟩
  | .invalidFees => ⟨631, "Fees not available", false, none⟩
  | .emptyPublicKey => ⟨632, "Public key not available", false, none⟩
  | .noSignatures => ⟨633, "no signature found", false, none⟩
  | .invalidSignature => ⟨634, "Invalid Signature", false, none⟩
  | .signatureNotVerified => ⟨635, "Signature(s) not verified with this public key(s)", false, none⟩
  | .needOnePublicKey => ⟨636, "Need one public key for single signature", false, none⟩
  | .needOnlyOneSignature => ⟨637, "Need only one signature", false, none⟩
  | .signatureTypeNotSupported => ⟨638, "Signature type not supported.", false, none⟩
  | .missingTransactionSize => ⟨638, "Transaction size required to calculate total fee.", false, none⟩

/-- The `RosettaNetworks` constant of src/unnamed/part_000 (lines 5-8). -/
def RosettaNetworks.mainnet : String := "mainnet"

/-- The `RosettaNetworks` constant of src/unnamed/part_000 (lines 5-8). -/
def RosettaNetworks.testnet : String := "testnet"

/-- `ChainID.Mainnet` from the external stacks-transactions library
(value 0x00000001). -/
def ChainID.Mainnet : Nat := 0x00000001

/-- `ChainID.Testnet` from the external stacks-transactions library
(value 0x80000000). -/
def ChainID.Testnet : Nat := 0x80000000

/-- The message of the plain Error thrown by `getRosettaNetworkName`
(src/unnamed/part_000 line 32) for an unexpected chain id; the template
interpolation of the chain id is modelled with decimal `Nat` rendering. -/
def rosettaNetworkNameErrorMessage (chainId : Nat) : String :=
  "Cannot get rosetta network for unexpected chainID \"" ++ toString chainId ++ "\""

/-- `getRosettaNetworkName` of src/unnamed/part_000 (lines 26-34).  The
TypeScript function either returns a string or throws a plain `Error`
carrying only its message; this is embedded as `Except String String`,
where the error side is the thrown message (an unstructured string, not a
catalog `RosettaError`). -/
def getRosettaNetworkName (chainId : Nat) : Except String String :=
  if chainId = ChainID.Mainnet then
    .ok RosettaNetworks.mainnet
  else if chainId = ChainID.Testnet then
    .ok RosettaNetworks.testnet
  else
    .error (rosettaNetworkNameErrorMessage chainId)

/-! ### Hex encoding utilities

Modelled from the spec (§4.1, §6): transaction bytes are hex-encoded with an
optional "0x" prefix on input; response hex is lowercase with a "0x" prefix.
The helpers `has0xPrefix`/`hexToBuffer`/`bufferToHexPrefixString` live in the
missing src/helpers module. -/

/-- Decode one hex digit (both cases accepted). -/
def hexDigitVal (c : Char) : Option Nat :=
  if '0' ≤ c ∧ c ≤ '9' then some (c.toNat - '0'.toNat)
  else if 'a' ≤ c ∧ c ≤ 'f' then some (c.toNat - 'a'.toNat + 10)
  else if 'A' ≤ c ∧ c ≤ 'F' then some (c.toNat - 'A'.toNat + 10)
  else none

/-- Decode a list of hex digit characters into bytes; `none` on an odd digit
count or a non-hex character. -/
def hexCharsToBytes : List Char → Option (List Nat)
  | [] => some []
  | [_] => none
  | hi :: lo :: rest =>
    match hexDigitVal hi, hexDigitVal lo, hexCharsToBytes rest with
    | some h, some l, some bs => some ((16 * h + l) :: bs)
    | _, _, _ => none

/-- Strip an optional leading "0x" marker. -/
def dropHexMarker (s : String) : List Char :=
  match s.toList with
  | '0' :: 'x' :: rest => rest
  | l => l

/-- Modelled from the spec: hex input with or without "0x" is decoded to
bytes; an odd digit count or a bad digit fails. -/
def hexToBytes (s : String) : Option (List Nat) :=
  hexCharsToBytes (dropHexMarker s)

/-- The lowercase hex character of a digit value below 16. -/
def hexDigitChar (n : Nat) : Char :=
  if n < 10 then Char.ofNat (n + '0'.toNat) else Char.ofNat (n - 10 + 'a'.toNat)

/-- Render one byte as two lowercase hex characters. -/
def byteToHexChars (b : Nat) : List Char :=
  [hexDigitChar (b / 16 % 16), hexDigitChar (b % 16)]

/-- Render bytes as a lowercase hex string (no marker). -/
def bytesToHex (l : List Nat) : String :=
  ⟨l.flatMap byteToHexChars⟩

/-! ### SHA-512/256

Modelled from the spec (§4.1 `tx_hash`): the transaction hash is the
SHA-512/256 digest (FIPS 180-4: the SHA-512 compression function with the
SHA-512/256 initial value, truncated to 32 bytes) of the full signed
transaction serialization.  The digest function itself
(`digestSha512_256` in the missing src/helpers module) is the standard
algorithm, embedded here executably over byte lists. -/

/-- 64-bit truncating addition. -/
def add64 (a b : Nat) : Nat := (a + b) % 2 ^ 64

/-- 64-bit right rotation. -/
def rotr64 (x n : Nat) : Nat :=
  (x >>> n ||| x <<< (64 - n)) % 2 ^ 64

/-- Big-endian byte rendering of `v` into `n` bytes. -/
def beBytes (n v : Nat) : List Nat :=
  (List.range n).map fun i => v >>> (8 * (n - 1 - i)) % 256

/-- Big-endian word from a list of bytes. -/
def beWord (l : List Nat) : Nat :=
  l.foldl (fun acc b => acc * 256 + b) 0

/-- The SHA-512 round constants. -/
def K512 : List Nat := [
  4794697086780616226, 8158064640168781261, 13096744586834688815,
  16840607885511220156, 4131703408338449720, 6480981068601479193,
  10538285296894168987, 12329834152419229976, 15566598209576043074,
  1334009975649890238, 2608012711638119052, 6128411473006802146,
  8268148722764581231, 9286055187155687089, 11230858885718282805,
  13951009754708518548, 16472876342353939154, 17275323862435702243,
  1135362057144423861, 2597628984639134821, 3308224258029322869,
  5365058923640841347, 6679025012923562964, 8573033837759648693,
  10970295158949994411, 12119686244451234320, 12683024718118986047,
  13788192230050041572, 14330467153632333762, 15395433587784984357,
  489312712824947311, 1452737877330783856, 2861767655752347644,
  3322285676063803686, 5560940570517711597, 5996557281743188959,
  7280758554555802590, 8532644243296465576, 9350256976987008742,
  10552545826968843579, 11727347734174303076, 12113106623233404929,
  14000437183269869457, 14369950271660146224, 15101387698204529176,
  15463397548674623760, 17586052441742319658, 1182934255886127544,
  1847814050463011016, 2177327727835720531, 2830643537854262169,
  3796741975233480872, 4115178125766777443, 5681478168544905931,
  6601373596472566643, 7507060721942968483, 8399075790359081724,
  8693463985226723168, 9568029438360202098, 10144078919501101548,
  10430055236837252648, 11840083180663258601, 13761210420658862357,
  14299343276471374635, 14566680578165727644, 15097957966210449927,
  16922976911328602910, 17689382322260857208, 500013540394364858,
  748580250866718886, 1242879168328830382, 1977374033974150939,
  2944078676154940804, 3659926193048069267, 4368137639120453308,
  4836135668995329356, 5532061633213252278, 6448918945643986474,
  6902733635092675308, 7801388544844847127]

/-- The SHA-512/256 initial hash value (FIPS 180-4 §5.3.6.2). -/
def sha512_256IV : List Nat := [
  2463787394917988140, 11481187982095705282, 2563595384472711505,
  10824532655140301501, 10819967247969091555, 13717434660681038226,
  3098927326965381290, 1060366662362279074]

/-- Pad a byte message for SHA-512: append 0x80, zeros, and the 128-bit
big-endian bit length, to a multiple of 128 bytes. -/
def sha512pad (msg : List Nat) : List Nat :=
  let len := msg.length
  let zeros := (128 - (len + 17) % 128) % 128
  msg ++ [0x80] ++ List.replicate zeros 0 ++ beBytes 16 (8 * len)

/-- Split a padded message into 128-byte blocks (fuel-driven recursion on
the block count so the definition reduces in the kernel). -/
def toBlocksAux : Nat → List Nat → List (List Nat)
  | 0, _ => []
  | _ + 1, [] => []
  | fuel + 1, l => l.take 128 :: toBlocksAux fuel (l.drop 128)

/-- Split a padded message into 128-byte blocks. -/
def toBlocks (l : List Nat) : List (List Nat) :=
  toBlocksAux (l.length / 128 + 1) l

/-- σ0 (message schedule small sigma 0). -/
def ssig0 (x : Nat) : Nat := rotr64 x 1 ^^^ rotr64 x 8 ^^^ x >>> 7

/-- σ1 (message schedule small sigma 1). -/
def ssig1 (x : Nat) : Nat := rotr64 x 19 ^^^ rotr64 x 61 ^^^ x >>> 6

/-- Σ0 (round big sigma 0). -/
def bsig0 (x : Nat) : Nat := rotr64 x 28 ^^^ rotr64 x 34 ^^^ rotr64 x 39

/-- Σ1 (round big sigma 1). -/
def bsig1 (x : Nat) : Nat := rotr64 x 14 ^^^ rotr64 x 18 ^^^ rotr64 x 41

/-- Extend the 16 block words to the 80-word message schedule. -/
def sha512schedule (block : List Nat) : List Nat :=
  let w0 := (List.range 16).map fun i => beWord ((block.drop (8 * i)).take 8)
  (List.range 64).foldl
    (fun w _ =>
      let n := w.length
      w ++ [add64 (add64 (ssig1 (w.getD (n - 2) 0)) (w.getD (n - 7) 0))
              (add64 (ssig0 (w.getD (n - 15) 0)) (w.getD (n - 16) 0))])
    w0

/-- One SHA-512 round on the eight working variables. -/
def sha512round (st : List Nat) (kw : Nat × Nat) : List Nat :=
  let a := st.getD 0 0
  let b := st.getD 1 0
  let c := st.getD 2 0
  let d := st.getD 3 0
  let e := st.getD 4 0
  let f := st.getD 5 0
  let g := st.getD 6 0
  let h := st.getD 7 0
  let ch := e &&& f ^^^ (e ^^^ (2 ^ 64 - 1)) &&& g
  let maj := a &&& b ^^^ a &&& c ^^^ b &&& c
  let t1 := add64 h (add64 (bsig1 e) (add64 ch (add64 kw.1 kw.2)))
  let t2 := add64 (bsig0 a) maj
  [add64 t1 t2, a, b, c, add64 d t1, e, f, g]

/-- SHA-512 compression of one 128-byte block into the running hash. -/
def sha512compress (hs block : List Nat) : List Nat :=
  let w := sha512schedule block
  let st := (K512.zip w).foldl sha512round hs
  (hs.zip st).map fun p => add64 p.1 p.2

/-- SHA-512/256 digest of a byte message: 32 bytes. -/
def sha512_256 (msg : List Nat) : List Nat :=
  let hs := (toBlocks (sha512pad msg)).foldl sha512compress sha512_256IV
  (hs.take 4).flatMap (beBytes 8)

/-! ### Transaction codec

Modelled from the spec (§3 RosettaTransaction, §4.1 Codec).  The single-sig
standard wire layout is: version (1 byte), chain id (4), auth type (1),
hash mode (1), signer (20), nonce (8), fee (8), key encoding (1),
recoverable signature (65), then anchor mode, post-conditions and payload.
The 65-byte signature slot therefore occupies bytes 44..108. -/

/-- Byte offset of the recoverable signature slot in a single-sig standard
transaction. -/
def sigSlotOffset : Nat := 44

/-- The 65-byte signature slot of a serialized transaction. -/
def txSignature (bytes : List Nat) : List Nat :=
  (bytes.drop sigSlotOffset).take 65

/-- Modelled from the spec (§4.1 `is_signed`): true iff the signature bytes
are not all zero and the recovery byte is 0 or 1. -/
def isSigned (bytes : List Nat) : Bool :=
  (txSignature bytes).any (fun b => b ≠ 0) && (txSignature bytes).headD 2 ≤ 1

/-- Modelled from the spec (§4.1 `deserialize`): hex input with optional
"0x" marker; an odd digit count or bad digit is a structural error, as is a
buffer too short to contain the fixed header and signature slot.  Only the
checks the claims exercise are modelled; the parsed result is kept as the
raw byte list. -/
def decodeTransaction (s : String) : Option (List Nat) :=
  match hexToBytes s with
  | none => none
  | some bytes => if bytes.length < 110 then none else some bytes

/-- Modelled from the spec (§4.4 combine): inject a wire-order recoverable
signature into the authorization slot of a serialized transaction. -/
def injectSignature (bytes sig : List Nat) : List Nat :=
  bytes.take sigSlotOffset ++ sig ++ bytes.drop (sigSlotOffset + 65)

/-! ### Construction endpoints: hash, submit

`/construction/hash` is modelled from the spec (§4.4 hash): decode
(`invalidTransactionString` on failure), require `is_signed`
(`transactionNotSigned` otherwise), return the "0x"-prefixed lowercase
SHA-512/256 of the serialization.

`/construction/submit` is modelled from the spec (§4.4 submit) together
with the repository's own test
(src/src/tests-rosetta/api.ts, test construction/submit - unsigned):
decode, then forward the bytes to the node; a node rejection is wrapped as
`invalidTransactionString` — the test pins exactly this error, code 628,
for an unsigned transaction, and the handler never produces
`transactionNotSigned` itself. -/

/-- The `/construction/hash` handler. -/
def constructionHash (s : String) : Except RosettaErrorsTypes String :=
  match decodeTransaction s with
  | none => .error .invalidTransactionString
  | some bytes =>
    if isSigned bytes then
      .ok ("0x" ++ bytesToHex (sha512_256 bytes))
    else
      .error .transactionNotSigned

/-- The `/construction/submit` handler, parameterized by the node's
broadcast acceptance (`NodeClient.broadcastTransaction`). -/
def constructionSubmit (broadcast : List Nat → Bool) (s : String) :
    Except RosettaErrorsTypes String :=
  match decodeTransaction s with
  | none => .error .invalidTransactionString
  | some bytes =>
    if broadcast bytes then
      .ok ("0x" ++ bytesToHex (sha512_256 bytes))
    else
      .error .invalidTransactionString

/-! ### Construction endpoint: combine

Modelled from the spec (§4.4 combine, §9 signature byte ordering): exactly
one signature is required; the unsigned transaction must decode; the
signature hex must decode to 65 bytes; the hex may be in wire order
[recovery‖r‖s] or wallet order [r‖s‖recovery], detected by the position of
the valid recovery byte (0x00/0x01) and normalized to wire order; the
normalized signature is verified against the claimed public key by
recoverable ECDSA (`recover_and_verify`), with `signatureNotVerified` if
no ordering verifies; on success the signature is injected in wire order
and the re-serialized transaction returned.  The ECDSA recovery itself is
an external cryptographic primitive and enters the model as the
`recoverVerify` parameter (serialized transaction bytes determine the
pre-sign hash, then the candidate wire signature and the parsed claimed
key). -/

/-- One entry of the combine request's `signatures` array: the signature
hex and the claimed public key hex. -/
structure RosettaSignature where
  hexBytes : String
  publicKeyHex : String

/-- Parse a claimed secp256k1 public key: hex decoding to exactly 33
bytes. -/
def parsePublicKey (s : String) : Option (List Nat) :=
  match hexToBytes s with
  | none => none
  | some pk => if pk.length = 33 then some pk else none

/-- The wire-order readings of a 65-byte signature whose recovery byte is
valid (0x00/0x01): the bytes as given (wire order) and/or the last byte
rotated to the front (wallet order). -/
def wireOrderCandidates (sig : List Nat) : List (List Nat) :=
  (if sig.headD 2 ≤ 1 then [sig] else []) ++
    (match sig.getLast? with
     | some b => if b ≤ 1 then [b :: sig.dropLast] else []
     | none => [])

/-- The `/construction/combine` handler. -/
def constructionCombine (recoverVerify : List Nat → List Nat → List Nat → Bool)
    (unsignedTransaction : String) (signatures : List RosettaSignature) :
    Except RosettaErrorsTypes String :=
  match signatures with
  | [] => .error .noSignatures
  | [sig] =>
    match decodeTransaction unsignedTransaction with
    | none => .error .invalidTransactionString
    | some bytes =>
      match hexToBytes sig.hexBytes with
      | none => .error .invalidSignature
      | some sigBytes =>
        if sigBytes.length = 65 then
          match (wireOrderCandidates sigBytes).filter (fun c =>
              match parsePublicKey sig.publicKeyHex with
              | some pk => recoverVerify bytes c pk
              | none => false) with
          | c :: _ => .ok ("0x" ++ bytesToHex (injectSignature bytes c))
          | [] => .error .signatureNotVerified
        else .error .invalidSignature
  | _ => .error .needOnlyOneSignature

/-! ### Operations and the operation mapper

Modelled from the spec (§3 Operation, §4.3 OperationMapper) and the
response shapes pinned by the test suite
(src/src/tests-rosetta/api.ts, tests block/transaction,
construction/parse - signed, construction/preprocess). -/

/-- `Currency`: `{symbol, decimals}`. -/
structure RosettaCurrency where
  symbol : String
  decimals : Nat
deriving DecidableEq

/-- The STX currency constant (`RosettaConstants` of src/unnamed/part_000,
lines 10-17). -/
def stxCurrency : RosettaCurrency := ⟨"STX", 6⟩

/-- `Amount`: signed value (debit negative, credit positive) with its
currency.  The decimal string of the wire format is modelled as `Int`. -/
structure RosettaAmount where
  value : Int
  currency : RosettaCurrency
deriving DecidableEq

/-- `coin_change` of an operation: the action and the coin identifier
string. -/
structure RosettaCoinChange where
  coin_action : String
  coin_identifier : String
deriving DecidableEq

/-- A Rosetta operation, as it appears in responses and construction
requests. -/
structure RosettaOperation where
  index : Nat
  related_operations : List Nat := []
  type : String
  status : Option String := none
  address : String
  amount : Option RosettaAmount := none
  coin_change : Option RosettaCoinChange := none
deriving DecidableEq

/-- Modelled from the spec (§4.3 reverse mapping): the fee operation of a
parsed token transfer — index 0, type fee, at the sender, amount the
negated fee. -/
def makeFeeOperation (sender : String) (fee : Int) (status : Option String) :
    RosettaOperation :=
  { index := 0, type := "fee", status := status, address := sender,
    amount := some ⟨-fee, stxCurrency⟩ }

/-- Modelled from the spec (§4.3 reverse mapping): the sender operation —
index 1, token_transfer, at the sender, amount the negated transfer
amount, coin_change coin_spent at txid:1. -/
def makeSenderOperation (txid sender : String) (amount : Int)
    (status : Option String) : RosettaOperation :=
  { index := 1, type := "token_transfer", status := status, address := sender,
    amount := some ⟨-amount, stxCurrency⟩,
    coin_change := some ⟨"coin_spent", txid ++ ":1"⟩ }

/-- Modelled from the spec (§4.3 reverse mapping): the recipient operation —
index 2, token_transfer, at the recipient, the positive transfer amount,
related to index 1, coin_change coin_created at txid:2. -/
def makeRecipientOperation (txid recipient : String) (amount : Int)
    (status : Option String) : RosettaOperation :=
  { index := 2, related_operations := [1], type := "token_transfer",
    status := status, address := recipient,
    amount := some ⟨amount, stxCurrency⟩,
    coin_change := some ⟨"coin_created", txid ++ ":2"⟩ }

/-- Modelled from the spec (§4.3 reverse mapping): the operations emitted
for a parsed token-transfer transaction, in order. -/
def reverseTokenTransferOperations (txid sender recipient : String)
    (amount fee : Int) (status : Option String) : List RosettaOperation :=
  [makeFeeOperation sender fee status,
   makeSenderOperation txid sender amount status,
   makeRecipientOperation txid recipient amount status]

/-! ### Preprocess -/

/-- The `options` object returned by `/construction/preprocess`, as pinned
by the construction/preprocess test (src/src/tests-rosetta/api.ts lines
830-848). -/
structure PreprocessOptions where
  sender_address : String
  type : String
  suggested_fee_multiplier : Option Nat
  token_transfer_recipient_address : String
  amount : Int
  symbol : String
  decimals : Nat
  max_fee : Option Int
  size : Nat
deriving DecidableEq

/-- Modelled from the spec (§4.3 forward mapping): a token transfer is
exactly one debit/credit pair of token_transfer operations with identical
currency and balancing amounts; anything else is `invalidOperation`.  The
result is the transfer intent (sender, recipient, unsigned amount). -/
def operationsToTransfer (ops : List RosettaOperation) :
    Except RosettaErrorsTypes (String × String × Int × RosettaCurrency) :=
  match ops with
  | [op1, op2] =>
    match op1.amount, op2.amount with
    | some a1, some a2 =>
      if op1.type = "token_transfer" ∧ op2.type = "token_transfer" ∧
          a1.currency = a2.currency ∧ a1.value < 0 ∧ 0 < a2.value ∧
          a1.value = -a2.value then
        .ok (op1.address, op2.address, a2.value, a1.currency)
      else .error .invalidOperation
    | _, _ => .error .invalidOperation
  | _ => .error .invalidOperation

/-- Modelled from the spec (§4.3 preprocess options,
`getOptionsFromOperations`): the options collected for
`/construction/preprocess` — sender, recipient, absolute amount, currency,
the scalar taken from the first `max_fee` entry, the multiplier, and the
fixed 180-byte size estimate for a single-signature token transfer.
Returns options together with `required_public_keys` (the sender's
address). -/
def constructionPreprocess (ops : List RosettaOperation)
    (maxFee : List RosettaAmount) (multiplier : Option Nat) :
    Except RosettaErrorsTypes (PreprocessOptions × List String) :=
  match operationsToTransfer ops with
  | .error e => .error e
  | .ok (sender, recipient, amount, currency) =>
    .ok ({ sender_address := sender,
           type := "token_transfer",
           suggested_fee_multiplier := multiplier,
           token_transfer_recipient_address := recipient,
           amount := amount,
           symbol := currency.symbol,
           decimals := currency.decimals,
           max_fee := (maxFee.head?).map (fun a => a.value),
           size := 180 },
         [sender])

/-! ### Metadata response shape

A minimal JSON value model, used to state claims about the shape of the
`/construction/metadata` response body. -/

/-- A JSON value. -/
inductive Json where
  | str : String → Json
  | num : Int → Json
  | boolean : Bool → Json
  | null : Json
  | arr : List Json → Json
  | obj : List (String × Json) → Json
deriving BEq

/-- Look up a key in a JSON object. -/
def Json.lookup (j : Json) (key : String) : Option Json :=
  match j with
  | .obj fields =>
    match fields.find? (fun p => p.1 = key) with
    | some p => some p.2
    | none => none
  | _ => none

/-- Is this JSON value an array? -/
def Json.isArr : Json → Bool
  | .arr _ => true
  | _ => false

/-- A Rosetta amount as JSON: `{value, currency: {symbol, decimals}}` with
the value a decimal string. -/
def amountJson (value : String) : Json :=
  .obj [("value", .str value),
        ("currency", .obj [("symbol", .str "STX"), ("decimals", .num 6)])]

/-- Modelled from the spec (§4.4 metadata) and the
construction/metadata - success test (src/src/tests-rosetta/api.ts lines
951-962): the successful `/construction/metadata` response body.  The
`metadata` object carries `account_sequence`, `recent_block_hash` and
`fee`; `suggested_fee` is a single amount object — the test reads
`suggested_fee.value` directly and expects the fee string there. -/
def metadataResponse (accountSequence : Int) (recentBlockHash : String)
    (fee : Nat) : Json :=
  .obj [("metadata",
          .obj [("account_sequence", .num accountSequence),
                ("recent_block_hash", .str recentBlockHash),
                ("fee", .str (toString fee))]),
        ("suggested_fee", amountJson (toString fee))]

/-! ### Concrete transactions from the test suite -/

/-- The signed transaction of the construction/hash test
(src/src/tests-rosetta/api.ts lines 1148-1149). -/
def signedTxHexC8 : String := "0x80800000000400539886f96611ba3ba6cef9618f8c78118b37c5be000000000000000000000000000000b400017a33a91515ef48608a99c6adecd2eb258e11534a1acf66348f5678c8e2c8f83d243555ed67a0019d3500df98563ca31321c1a675b43ef79f146e322fe08df75103020000000000051a1ae3f911d8f1d46d7416bfbe4b593fd41eac19cb000000000007a12000000000000000000000000000000000000000000000000000000000000000000000"

/-- The bytes of `signedTxHexC8`. -/
def signedTxBytesC8 : List Nat := (decodeTransaction signedTxHexC8).getD []

/-- The unsigned transaction (zero-filled signature slot) of the
construction/hash - unsigned transaction test
(src/src/tests-rosetta/api.ts lines 1211-1212). -/
def unsignedTxHex : String := "0x80800000000400539886f96611ba3ba6cef9618f8c78118b37c5be000000000000000000000000000000b400000000000000000000000000000000000000000000000000000000000000000000000000000000000000000000000000000000000000000000000000000000000003020000000000051a1ae3f911d8f1d46d7416bfbe4b593fd41eac19cb000000000007a12000000000000000000000000000000000000000000000000000000000000000000000"

/-- The bytes of `unsignedTxHex`. -/
def unsignedTxBytes : List Nat := (decodeTransaction unsignedTxHex).getD []

/-- The unsigned transaction of the combine invalid public key test
(src/src/tests-rosetta/api.ts lines 1955-1956). -/
def combineTxHexC9 : String := "80800000000400539886f96611ba3ba6cef9618f8c78118b37c5be000000000000000000000000000000b4000136212600bf7463399a23c398f29ca7006b9986b4a01129dd7c6e89314607208e516b0b28c1d850fe6e164abea7b6cceb4aa09700a6d218d1b605d4a402d3038f03020000000000051ab71a091b4b8b7661a661c620966ab6573bc2dcd3000000000007a12074657374207472616e73616374696f6e000000000000000000000000000000000000"

/-- The bytes of `combineTxHexC9`. -/
def combineTxBytesC9 : List Nat := (decodeTransaction combineTxHexC9).getD []

/-- The 65-byte signature hex of the combine invalid public key test
(src/src/tests-rosetta/api.ts lines 1969-1970). -/
def combineSigHexC9 : String := "36212600bf7463399a23c398f29ca7006b9986b4a01129dd7c6e89314607208e516b0b28c1d850fe6e164abea7b6cceb4aa09700a6d218d1b605d4a402d3038f01"

/-- The bytes of `combineSigHexC9`. -/
def combineSigBytesC9 : List Nat := (hexToBytes combineSigHexC9).getD []

/-! ### Claim C2: error codes -/

/-- Claim C2 counterexample: the catalog does not assign distinct codes to
distinct kinds — `signatureTypeNotSupported` and `missingTransactionSize`
are distinct kinds that both carry code 638. -/
theorem claim_C2_counterexample :
    (RosettaErrors RosettaErrorsTypes.signatureTypeNotSupported).code = 638 ∧
    (RosettaErrors RosettaErrorsTypes.missingTransactionSize).code = 638 ∧
    RosettaErrorsTypes.signatureTypeNotSupported ≠
      RosettaErrorsTypes.missingTransactionSize := by
  refine ⟨rfl, rfl, ?_⟩
  decide

/-- Claim C2 (amended): the catalog's codes fill the range 601-638 with no
gaps, and distinct kinds carry distinct codes with the single exception of
`signatureTypeNotSupported` and `missingTransactionSize`, which share
code 638. -/
theorem claim_C2_amended :
    (∀ k k' : RosettaErrorsTypes,
        (RosettaErrors k).code = (RosettaErrors k').code →
        k = k' ∨
          (k = .signatureTypeNotSupported ∧ k' = .missingTransactionSize) ∨
          (k = .missingTransactionSize ∧ k' = .signatureTypeNotSupported)) ∧
    (∀ k : RosettaErrorsTypes,
        601 ≤ (RosettaErrors k).code ∧ (RosettaErrors k).code ≤ 638) ∧
    (∀ n : Nat, n < 38 → ∃ k : RosettaErrorsTypes,
        (RosettaErrors k).code = 601 + n) := by
  refine ⟨by decide, by decide, by decide⟩

/-- Claim C2 amended witness: the dense-range clause at the concrete
code 638. -/
theorem claim_C2_witness :
    ∃ k : RosettaErrorsTypes, (RosettaErrors k).code = 601 + 37 :=
  claim_C2_amended.2.2 37 (by decide)

/-! ### Claim C3: retriable flags -/

/-- Claim C3 counterexample: `invalidAccount`, `invalidBlockHash` and
`invalidTransactionHash` — validation failures the claim requires to be
non-retriable — all carry `retriable = true` in the catalog. -/
theorem claim_C3_counterexample :
    (RosettaErrors RosettaErrorsTypes.invalidAccount).retriable = true ∧
    (RosettaErrors RosettaErrorsTypes.invalidBlockHash).retriable = true ∧
    (RosettaErrors RosettaErrorsTypes.invalidTransactionHash).retriable = true := by
  refine ⟨rfl, rfl, rfl⟩

/-- Claim C3 (amended): the catalog marks exactly six kinds retriable —
the lookup failures `blockNotFound` and `transactionNotFound`, and the
validation kinds `invalidAccount`, `invalidBlockHash`,
`invalidTransactionHash` and `invalidTransactionIdentifier`; every other
kind is non-retriable. -/
theorem claim_C3_amended :
    ∀ k : RosettaErrorsTypes,
      (RosettaErrors k).retriable = true ↔
        (k = .invalidAccount ∨ k = .blockNotFound ∨ k = .invalidBlockHash ∨
         k = .transactionNotFound ∨ k = .invalidTransactionHash ∨
         k = .invalidTransactionIdentifier) := by
  decide

/-! ### Claim C10: getRosettaNetworkName -/

/-- Claim C10: `getRosettaNetworkName` maps `ChainID.Mainnet` to
"mainnet" and `ChainID.Testnet` to "testnet", and for every other chain id
it throws a plain Error — an unstructured message string (one no catalog
entry carries), not a catalog `RosettaError` response. -/
theorem claim_C10_network_name :
    getRosettaNetworkName ChainID.Mainnet = .ok "mainnet" ∧
    getRosettaNetworkName ChainID.Testnet = .ok "testnet" ∧
    (∀ c : Nat, c ≠ ChainID.Mainnet → c ≠ ChainID.Testnet →
      getRosettaNetworkName c = .error (rosettaNetworkNameErrorMessage c)) ∧
    (∀ k : RosettaErrorsTypes,
      (RosettaErrors k).message ≠ rosettaNetworkNameErrorMessage 0) := by
  refine ⟨rfl, rfl, ?_, by decide⟩
  intro c h1 h2
  simp [getRosettaNetworkName, h1, h2]

/-- Claim C10 witness: the throwing branch at the concrete chain id 0. -/
theorem claim_C10_witness :
    getRosettaNetworkName 0 = .error (rosettaNetworkNameErrorMessage 0) :=
  claim_C10_network_name.2.2.1 0 (by decide) (by decide)

/-! ### Claim C5: reverse operation mapping -/

/-- Claim C5: for a parsed token transfer with sender s, recipient r,
amount a, fee f, the reverse mapping emits exactly three operations in
order — index 0 a fee operation at s with amount -f; index 1 a
token_transfer at s with amount -a and coin_change coin_spent txid:1;
index 2 a token_transfer at r with amount +a, related to index 1, and
coin_change coin_created txid:2. -/
theorem claim_C5_reverse_operations (txid s r : String) (a f : Int)
    (st : Option String) :
    reverseTokenTransferOperations txid s r a f st =
      [{ index := 0, related_operations := [], type := "fee", status := st,
         address := s, amount := some ⟨-f, stxCurrency⟩, coin_change := none },
       { index := 1, related_operations := [], type := "token_transfer",
         status := st, address := s, amount := some ⟨-a, stxCurrency⟩,
         coin_change := some ⟨"coin_spent", txid ++ ":1"⟩ },
       { index := 2, related_operations := [1], type := "token_transfer",
         status := st, address := r, amount := some ⟨a, stxCurrency⟩,
         coin_change := some ⟨"coin_created", txid ++ ":2"⟩ }] := rfl

/-! ### Claim C6: preprocess -/

/-- Claim C6: for a balanced debit/credit pair of token_transfer
operations, `/construction/preprocess` returns options whose amount is the
absolute value of the debit amount, whose sender_address is the debit
operation's address, with the fixed size 180, and required_public_keys
containing exactly the debit operation's address. -/
theorem claim_C6_preprocess (debit credit : RosettaOperation) (v : Int)
    (cur : RosettaCurrency) (maxFee : List RosettaAmount)
    (mult : Option Nat) :
    debit.type = "token_transfer" → credit.type = "token_transfer" →
    debit.amount = some ⟨-v, cur⟩ → credit.amount = some ⟨v, cur⟩ →
    0 < v →
    constructionPreprocess [debit, credit] maxFee mult =
      .ok ({ sender_address := debit.address,
             type := "token_transfer",
             suggested_fee_multiplier := mult,
             token_transfer_recipient_address := credit.address,
             amount := v,
             symbol := cur.symbol,
             decimals := cur.decimals,
             max_fee := (maxFee.head?).map (fun x => x.value),
             size := 180 },
           [debit.address]) := by
  intro ht hc hda hca hv
  simp only [constructionPreprocess, operationsToTransfer, hda, hca, ht, hc]
  have hneg : (-v : Int) < 0 := by omega
  simp [hneg, hv]

/-- The debit operation of the construction/preprocess test
(src/src/tests-rosetta/api.ts lines 766-786). -/
def preprocessDebitOp : RosettaOperation :=
  { index := 0, type := "token_transfer", status := none,
    address := "STB44HYPYAT2BB2QE513NSP81HTMYWBJP02HPGK6",
    amount := some ⟨-500000, stxCurrency⟩ }

/-- The credit operation of the construction/preprocess test
(src/src/tests-rosetta/api.ts lines 787-807). -/
def preprocessCreditOp : RosettaOperation :=
  { index := 1, type := "token_transfer", status := none,
    address := "STDE7Y8HV3RX8VBM2TZVWJTS7ZA1XB0SSC3NEVH0",
    amount := some ⟨500000, stxCurrency⟩ }

/-- Claim C6 witness: the concrete request of the
construction/preprocess test (amount 500000, max_fee 12380898,
multiplier 1) yields the response the test expects. -/
theorem claim_C6_witness :
    constructionPreprocess [preprocessDebitOp, preprocessCreditOp]
        [⟨12380898, stxCurrency⟩] (some 1) =
      .ok ({ sender_address := "STB44HYPYAT2BB2QE513NSP81HTMYWBJP02HPGK6",
             type := "token_transfer",
             suggested_fee_multiplier := some 1,
             token_transfer_recipient_address :=
               "STDE7Y8HV3RX8VBM2TZVWJTS7ZA1XB0SSC3NEVH0",
             amount := 500000,
             symbol := "STX",
             decimals := 6,
             max_fee := some 12380898,
             size := 180 },
           ["STB44HYPYAT2BB2QE513NSP81HTMYWBJP02HPGK6"]) :=
  claim_C6_preprocess preprocessDebitOp preprocessCreditOp 500000 stxCurrency
    [⟨12380898, stxCurrency⟩] (some 1) rfl rfl rfl rfl (by decide)

/-! ### Claim C7: metadata response shape -/

/-- Claim C7 counterexample: in the `/construction/metadata` response the
`suggested_fee` field is a single amount object, not an array — at the
concrete response for fee 180 the field holds an object whose `value` is
the string "180" (exactly what the construction/metadata - success test
reads as suggested_fee.value). -/
theorem claim_C7_counterexample :
    (metadataResponse 0 "0xff" 180).lookup "suggested_fee" =
      some (amountJson "180") ∧
    Json.isArr (amountJson "180") = false ∧
    (amountJson "180").lookup "value" = some (.str "180") := by
  refine ⟨rfl, rfl, rfl⟩

/-- Claim C7 (amended): a successful `/construction/metadata` response
contains a metadata object with account_sequence, recent_block_hash and
fee, and a suggested_fee field that is a single amount object
{value, currency} carrying the fee — not an array of amounts. -/
theorem claim_C7_amended (seq : Int) (hash : String) (fee : Nat) :
    (metadataResponse seq hash fee).lookup "metadata" =
      some (.obj [("account_sequence", .num seq),
                  ("recent_block_hash", .str hash),
                  ("fee", .str (toString fee))]) ∧
    (metadataResponse seq hash fee).lookup "suggested_fee" =
      some (amountJson (toString fee)) ∧
    (amountJson (toString fee)).lookup "value" =
      some (.str (toString fee)) ∧
    Json.isArr (amountJson (toString fee)) = false := by
  refine ⟨rfl, rfl, rfl, rfl⟩

/-! ### Claim C8: construction/hash -/

set_option maxRecDepth 100000

/-- Claim C8: the hash returned by `/construction/hash` is the SHA-512/256
digest of the full signed transaction serialization, rendered as lowercase
hex with a "0x" prefix; at the concrete signed transaction of the
construction/hash test the returned hash is exactly
0xf3b054a5fbae98f7f35e5e917b65759fc365a3e073f8af1c3b8d211b286fa74a. -/
theorem claim_C8_hash :
    (∀ (s : String) (bytes : List Nat),
        decodeTransaction s = some bytes → isSigned bytes = true →
        constructionHash s = .ok ("0x" ++ bytesToHex (sha512_256 bytes))) ∧
    constructionHash signedTxHexC8 =
      .ok "0xf3b054a5fbae98f7f35e5e917b65759fc365a3e073f8af1c3b8d211b286fa74a" := by
  constructor
  · intro s bytes hdec hsig
    simp [constructionHash, hdec, hsig]
  · rfl

/-- Claim C8 witness: the general clause at the concrete signed
transaction of the construction/hash test. -/
theorem claim_C8_witness :
    constructionHash signedTxHexC8 =
      .ok ("0x" ++ bytesToHex (sha512_256 signedTxBytesC8)) :=
  claim_C8_hash.1 signedTxHexC8 signedTxBytesC8 (by rfl) (by rfl)

/-! ### Claim C1: unsigned transactions at submit and hash -/

/-- Claim C1 counterexample: at the concrete unsigned transaction of the
test suite (zero-filled signature slot), `/construction/submit` answers
with `invalidTransactionString` (code 628) — the error its own test pins —
not with `transactionNotSigned` (code 629) as the claim states. -/
theorem claim_C1_counterexample :
    constructionSubmit (fun _ => false) unsignedTxHex =
      .error .invalidTransactionString ∧
    RosettaErrorsTypes.invalidTransactionString ≠
      RosettaErrorsTypes.transactionNotSigned ∧
    (RosettaErrors RosettaErrorsTypes.invalidTransactionString).code = 628 := by
  refine ⟨rfl, by decide, rfl⟩

/-- Claim C1 (amended): an unsigned transaction submitted to
`/construction/hash` yields `transactionNotSigned` (code 629), but
`/construction/submit` never produces that error: it wraps the node's
rejection of the transaction as `invalidTransactionString` (code 628), as
its own test expects. -/
theorem claim_C1_amended :
    constructionHash unsignedTxHex = .error .transactionNotSigned ∧
    (∀ (broadcast : List Nat → Bool) (s : String) (bytes : List Nat),
        decodeTransaction s = some bytes → broadcast bytes = false →
        constructionSubmit broadcast s = .error .invalidTransactionString) ∧
    (∀ (broadcast : List Nat → Bool) (s : String),
        constructionSubmit broadcast s ≠ .error .transactionNotSigned) := by
  refine ⟨rfl, ?_, ?_⟩
  · intro broadcast s bytes hdec hrej
    simp [constructionSubmit, hdec, hrej]
  · intro broadcast s
    unfold constructionSubmit
    cases hdec : decodeTransaction s with
    | none => simp
    | some bytes => cases hb : broadcast bytes <;> simp [hb]

/-- Claim C1 amended witness: the submit clause at the concrete unsigned
transaction, with the node rejecting the broadcast. -/
theorem claim_C1_witness :
    constructionSubmit (fun _ => false) unsignedTxHex =
      .error .invalidTransactionString :=
  claim_C1_amended.2.1 (fun _ => false) unsignedTxHex unsignedTxBytes
    (by rfl) (by rfl)

/-! ### Hex round-trip -/

/-- Rendering a hex digit and reading it back is the identity. -/
theorem hexDigit_roundtrip : ∀ n < 16, hexDigitVal (hexDigitChar n) = some n := by
  decide

/-- No rendered hex digit is the character x, so rendered hex never grows
a "0x" marker. -/
theorem hexDigitChar_ne_x : ∀ n < 16, hexDigitChar n ≠ 'x' := by
  decide

/-- Reading back one rendered byte. -/
theorem hexCharsToBytes_byte (b : Nat) (hb : b < 256) (rest : List Char)
    (bs : List Nat) (h : hexCharsToBytes rest = some bs) :
    hexCharsToBytes (byteToHexChars b ++ rest) = some (b :: bs) := by
  have h1 : hexDigitVal (hexDigitChar (b / 16 % 16)) = some (b / 16 % 16) :=
    hexDigit_roundtrip _ (Nat.mod_lt _ (by norm_num))
  have h2 : hexDigitVal (hexDigitChar (b % 16)) = some (b % 16) :=
    hexDigit_roundtrip _ (Nat.mod_lt _ (by norm_num))
  have hb16 : 16 * (b / 16 % 16) + b % 16 = b := by omega
  simp only [byteToHexChars, List.append_eq, List.cons_append, List.nil_append,
    hexCharsToBytes, h1, h2, h, hb16]

/-- Rendered bytes never carry a "0x" marker, so stripping is the
identity on them. -/
theorem dropHexMarker_bytesToHex (l : List Nat) :
    dropHexMarker (bytesToHex l) = l.flatMap byteToHexChars := by
  have htl : (bytesToHex l).toList = l.flatMap byteToHexChars := rfl
  unfold dropHexMarker
  rw [htl]
  cases l with
  | nil => rfl
  | cons b t =>
    simp only [List.flatMap_cons, byteToHexChars, List.cons_append]
    split
    · next rest heq =>
      exfalso
      have : hexDigitChar (b % 16) = 'x' := by
        injection heq with h1 h2
        injection h2 with h3 h4
      exact hexDigitChar_ne_x _ (Nat.mod_lt _ (by norm_num)) this
    · rfl

/-- Hex round-trip: decoding a rendered byte list gives it back. -/
theorem hexToBytes_bytesToHex (l : List Nat) (h : ∀ b ∈ l, b < 256) :
    hexToBytes (bytesToHex l) = some l := by
  unfold hexToBytes
  rw [dropHexMarker_bytesToHex]
  induction l with
  | nil => rfl
  | cons b t ih =>
    simp only [List.flatMap_cons]
    exact hexCharsToBytes_byte b (h b (by simp)) _ _
      (ih fun x hx => h x (by simp [hx]))

/-! ### Claim C9: combine with an unparseable public key -/

/-- Claim C9: when the unsigned transaction decodes and the signature hex
is a well-formed 65-byte recoverable signature but the claimed public key
hex is not a parseable secp256k1 key, `/construction/combine` answers
`signatureNotVerified` (code 635), not `invalidPublicKey` (code 620) —
the verification step simply never succeeds against an unparseable key. -/
theorem claim_C9_combine_unparseable_key
    (recoverVerify : List Nat → List Nat → List Nat → Bool)
    (u sigHex pkHex : String) (bytes sigBytes : List Nat) :
    decodeTransaction u = some bytes →
    hexToBytes sigHex = some sigBytes →
    sigBytes.length = 65 →
    parsePublicKey pkHex = none →
    constructionCombine recoverVerify u [⟨sigHex, pkHex⟩] =
        .error .signatureNotVerified ∧
    (RosettaErrors RosettaErrorsTypes.signatureNotVerified).code = 635 ∧
    RosettaErrorsTypes.signatureNotVerified ≠
      RosettaErrorsTypes.invalidPublicKey := by
  intro hdec hsig hlen hpk
  refine ⟨?_, rfl, by decide⟩
  simp [constructionCombine, hdec, hsig, hlen, hpk]

/-- Claim C9 witness: the concrete request of the
combine invalid public key test (public key hex "invalid  public key"). -/
theorem claim_C9_witness :
    constructionCombine (fun _ _ _ => false) combineTxHexC9
        [⟨combineSigHexC9, "invalid  public key"⟩] =
      .error .signatureNotVerified :=
  (claim_C9_combine_unparseable_key (fun _ _ _ => false) combineTxHexC9
      combineSigHexC9 "invalid  public key" combineTxBytesC9 combineSigBytesC9
      (by rfl) (by rfl) (by rfl) (by rfl)).1

/-! ### Claim C4: combine accepts both signature byte orders -/

/-- Filtering keeps a head that satisfies the predicate. -/
theorem filter_head_pos {α} (p : α → Bool) (a : α) (l : List α)
    (h : p a = true) : List.filter p (a :: l) = a :: List.filter p l := by
  simp [List.filter_cons, h]

/-- Filtering drops a head that fails the predicate. -/
theorem filter_head_neg {α} (p : α → Bool) (a : α) (l : List α)
    (h : p a = false) : List.filter p (a :: l) = List.filter p l := by
  simp [List.filter_cons, h]

/-- Claim C4: for an unsigned transaction and a valid 65-byte recoverable
signature over its pre-sign hash (one that recoverable-ECDSA-verifies
exactly in its wire-order reading recovery‖r‖s against the claimed key),
`/construction/combine` returns the same signed transaction whether the
signature hex arrives in wire order recovery‖r‖s or in wallet order
r‖s‖recovery, and the result is the transaction with the signature
injected in wire order. -/
theorem claim_C4_combine_order
    (recoverVerify : List Nat → List Nat → List Nat → Bool)
    (u pkHex : String) (bytes pk rs : List Nat) (rcv : Nat)
    (hdec : decodeTransaction u = some bytes)
    (hpk : parsePublicKey pkHex = some pk)
    (hrcv : rcv ≤ 1) (hlen : rs.length = 64)
    (hbound : ∀ b ∈ rcv :: rs, b < 256)
    (hverify : ∀ c, recoverVerify bytes c pk = true ↔ c = rcv :: rs) :
    constructionCombine recoverVerify u [⟨bytesToHex (rcv :: rs), pkHex⟩] =
        .ok ("0x" ++ bytesToHex (injectSignature bytes (rcv :: rs))) ∧
    constructionCombine recoverVerify u [⟨bytesToHex (rs ++ [rcv]), pkHex⟩] =
        .ok ("0x" ++ bytesToHex (injectSignature bytes (rcv :: rs))) := by
  have hhex1 : hexToBytes (bytesToHex (rcv :: rs)) = some (rcv :: rs) :=
    hexToBytes_bytesToHex _ hbound
  have hbound2 : ∀ b ∈ rs ++ [rcv], b < 256 := by
    intro b hb
    apply hbound
    simp only [List.mem_append, List.mem_singleton, List.mem_cons] at hb ⊢
    tauto
  have hhex2 : hexToBytes (bytesToHex (rs ++ [rcv])) = some (rs ++ [rcv]) :=
    hexToBytes_bytesToHex _ hbound2
  have hlen1 : (rcv :: rs).length = 65 := by simp [hlen]
  have hlen2 : (rs ++ [rcv]).length = 65 := by simp [hlen]
  have hptrue : (fun c =>
      match parsePublicKey pkHex with
      | some pk => recoverVerify bytes c pk
      | none => false) (rcv :: rs) = true := by
    show (match parsePublicKey pkHex with
      | some pk => recoverVerify bytes (rcv :: rs) pk
      | none => false) = true
    rw [hpk]
    exact (hverify (rcv :: rs)).mpr rfl
  constructor
  · -- wire order input
    simp only [constructionCombine, hdec, hhex1, hlen1, if_pos]
    have hcand : wireOrderCandidates (rcv :: rs) =
        (rcv :: rs) :: (match (rcv :: rs).getLast? with
          | some b => if b ≤ 1 then [b :: (rcv :: rs).dropLast] else []
          | none => []) := by
      unfold wireOrderCandidates
      rw [List.headD_cons, if_pos hrcv]
      rfl
    rw [hcand, filter_head_pos (fun c =>
      match parsePublicKey pkHex with
      | some pk => recoverVerify bytes c pk
      | none => false) (rcv :: rs) _ hptrue]
  · -- wallet order input
    cases rs with
    | nil => simp at hlen
    | cons r0 rs' =>
      simp only [constructionCombine, hdec, hhex2, hlen2, if_pos]
      have hlast : ((r0 :: rs') ++ [rcv]).getLast? = some rcv :=
        List.getLast?_concat _
      have hdrop : ((r0 :: rs') ++ [rcv]).dropLast = r0 :: rs' :=
        List.dropLast_concat
      have hcand : wireOrderCandidates ((r0 :: rs') ++ [rcv]) =
          (if r0 ≤ 1 then [(r0 :: rs') ++ [rcv]] else []) ++
            [rcv :: r0 :: rs'] := by
        unfold wireOrderCandidates
        rw [hlast]
        simp only [List.cons_append, List.headD_cons, hrcv, if_pos]
        rw [← List.cons_append, hdrop]
      rw [hcand]
      by_cases h0 : r0 ≤ 1
      · rw [if_pos h0]
        by_cases heq : (r0 :: rs') ++ [rcv] = rcv :: r0 :: rs'
        · rw [heq]
          show (match List.filter (fun c =>
              match parsePublicKey pkHex with
              | some pk => recoverVerify bytes c pk
              | none => false) ((rcv :: r0 :: rs') :: [rcv :: r0 :: rs']) with
            | c :: _ => Except.ok ("0x" ++ bytesToHex (injectSignature bytes c))
            | [] => Except.error RosettaErrorsTypes.signatureNotVerified) =
            Except.ok ("0x" ++ bytesToHex (injectSignature bytes (rcv :: r0 :: rs')))
          rw [filter_head_pos (fun c =>
            match parsePublicKey pkHex with
            | some pk => recoverVerify bytes c pk
            | none => false) (rcv :: r0 :: rs') _ hptrue]
        · have hpfalse : (fun c =>
              match parsePublicKey pkHex with
              | some pk => recoverVerify bytes c pk
              | none => false) ((r0 :: rs') ++ [rcv]) = false := by
            show (match parsePublicKey pkHex with
              | some pk => recoverVerify bytes ((r0 :: rs') ++ [rcv]) pk
              | none => false) = false
            rw [hpk, Bool.eq_false_iff]
            intro hx
            exact heq ((hverify _).mp hx)
          show (match List.filter (fun c =>
              match parsePublicKey pkHex with
              | some pk => recoverVerify bytes c pk
              | none => false) (((r0 :: rs') ++ [rcv]) :: [rcv :: r0 :: rs']) with
            | c :: _ => Except.ok ("0x" ++ bytesToHex (injectSignature bytes c))
            | [] => Except.error RosettaErrorsTypes.signatureNotVerified) =
            Except.ok ("0x" ++ bytesToHex (injectSignature bytes (rcv :: r0 :: rs')))
          rw [filter_head_neg (fun c =>
              match parsePublicKey pkHex with
              | some pk => recoverVerify bytes c pk
              | none => false) ((r0 :: rs') ++ [rcv]) _ hpfalse,
            filter_head_pos (fun c =>
              match parsePublicKey pkHex with
              | some pk => recoverVerify bytes c pk
              | none => false) (rcv :: r0 :: rs') _ hptrue]
      · rw [if_neg h0, List.nil_append]
        rw [filter_head_pos (fun c =>
          match parsePublicKey pkHex with
          | some pk => recoverVerify bytes c pk
          | none => false) (rcv :: r0 :: rs') _ hptrue]

/-- The secp256k1 public key hex used across the test suite
(src/src/tests-rosetta/api.ts line 698). -/
def c4PkHex : String :=
  "025c13b2fc2261956d8a4ad07d481b1a3b2cbf93a24f992249a61c3a1c4de79c51"

/-- The bytes of `c4PkHex`. -/
def c4PkBytes : List Nat := (hexToBytes c4PkHex).getD []

/-- A concrete wire-order recoverable signature: recovery byte 1 followed
by 64 bytes of 42. -/
def c4WireSig : List Nat := 1 :: List.replicate 64 42

/-- A concrete verification oracle accepting exactly `c4WireSig`. -/
def c4Verify : List Nat → List Nat → List Nat → Bool :=
  fun _ c _ => c == c4WireSig

/-- Claim C4 witness: at a concrete unsigned transaction, public key and
signature, combine returns the same signed transaction for both byte
orders. -/
theorem claim_C4_witness :
    constructionCombine c4Verify unsignedTxHex
        [⟨bytesToHex c4WireSig, c4PkHex⟩] =
      .ok ("0x" ++ bytesToHex (injectSignature unsignedTxBytes c4WireSig)) ∧
    constructionCombine c4Verify unsignedTxHex
        [⟨bytesToHex (List.replicate 64 42 ++ [1]), c4PkHex⟩] =
      .ok ("0x" ++ bytesToHex (injectSignature unsignedTxBytes c4WireSig)) :=
  claim_C4_combine_order c4Verify unsignedTxHex c4PkHex unsignedTxBytes
    c4PkBytes (List.replicate 64 42) 1 (by rfl) (by rfl) (by decide)
    (by simp) (by decide) (fun c => by simp [c4Verify, c4WireSig])
